import Mathlib

/-!
Shallow embedding of the tracing and reflective-improvement core of the
multi-agent system (files `agents/protocol.py`, `utils/tracer.py`,
`agents/agent_base.py`, `agents/patterns.py`).

Modelling conventions:
* Python `int` is `Int`; wall-clock instants are integers in milliseconds.
* The file-system write performed by `Tracer.finalize` is an injected
  outcome (`writeOk : Bool`): `true` models a successful append,
  `false` an I/O or permission error raised by `open`/`write`.
* The opaque model-call collaborator `llm_call` is an injected function;
  for the retry loop it is a stream of per-attempt outcomes, for the
  reflective loop a function from the prompt to `(text, usage)`.
* `uuid4` and `datetime.utcnow` defaults of `APMessage` are an injected
  generator `metaGen : Nat -> String × String` indexed by how many
  messages the tracer holds when the message is constructed.
-/

/-- JSON values, as produced by `json.dumps` of a pydantic `.dict()`:
null, booleans, integers, strings, arrays and objects. -/
inductive Json where
  | null : Json
  | bool (b : Bool) : Json
  | num (n : Int) : Json
  | str (s : String) : Json
  | arr (elems : List Json) : Json
  | obj (fields : List (String × Json)) : Json

/-- The `Role` literal of `agents/protocol.py`:
one of "user", "agent", "validator", "system", "tool". -/
inductive Role where
  | user : Role
  | agent : Role
  | validator : Role
  | system : Role
  | tool : Role
deriving DecidableEq

/-- Serialize a `Role` to its literal string. -/
def roleToString : Role → String
  | Role.user => "user"
  | Role.agent => "agent"
  | Role.validator => "validator"
  | Role.system => "system"
  | Role.tool => "tool"

/-- Parse a role string; pydantic validation rejects anything outside the
five enumerated literals. -/
def roleFromString (s : String) : Option Role :=
  if s = "user" then some Role.user
  else if s = "agent" then some Role.agent
  else if s = "validator" then some Role.validator
  else if s = "system" then some Role.system
  else if s = "tool" then some Role.tool
  else none

/-- `APMessage` of `agents/protocol.py`: id, role, sender, content,
optional tool name, optional tool arguments (a string-keyed JSON mapping),
and a creation timestamp. -/
structure APMessage where
  id : String
  role : Role
  sender : String
  content : String
  tool_name : Option String
  tool_args : Option (List (String × Json))
  ts : String

/-- `APExchange` of `agents/protocol.py`: task id, ordered message list,
cumulative token costs (Python ints), optional latency and verdict. -/
structure APExchange where
  task_id : String
  messages : List APMessage
  cost_tokens_prompt : Int
  cost_tokens_output : Int
  latency_ms : Option Int
  verdict : Option String

/-- Serialize one message as `json.dumps` of its pydantic `.dict()`:
every field is present, `None` becomes `null`. -/
def msgToJson (m : APMessage) : Json :=
  Json.obj
    [ ("id", Json.str m.id)
    , ("role", Json.str (roleToString m.role))
    , ("sender", Json.str m.sender)
    , ("content", Json.str m.content)
    , ("tool_name", match m.tool_name with
        | none => Json.null
        | some s => Json.str s)
    , ("tool_args", match m.tool_args with
        | none => Json.null
        | some l => Json.obj l)
    , ("ts", Json.str m.ts) ]

/-- Parse a message record back, validating the role literal and the
shapes of the optional fields. -/
def msgFromJson : Json → Option APMessage
  | Json.obj
      [ ("id", Json.str id)
      , ("role", Json.str r)
      , ("sender", Json.str sender)
      , ("content", Json.str content)
      , ("tool_name", tn)
      , ("tool_args", ta)
      , ("ts", Json.str ts) ] =>
    match roleFromString r, tn, ta with
    | some role, Json.null, Json.null =>
        some ⟨id, role, sender, content, none, none, ts⟩
    | some role, Json.null, Json.obj l =>
        some ⟨id, role, sender, content, none, some l, ts⟩
    | some role, Json.str s, Json.null =>
        some ⟨id, role, sender, content, some s, none, ts⟩
    | some role, Json.str s, Json.obj l =>
        some ⟨id, role, sender, content, some s, some l, ts⟩
    | _, _, _ => none
  | _ => none

/-- Serialize an exchange as the one-line record `finalize` writes:
`json.dumps(self.exchange.dict())`. -/
def exchangeToJson (e : APExchange) : Json :=
  Json.obj
    [ ("task_id", Json.str e.task_id)
    , ("messages", Json.arr (e.messages.map msgToJson))
    , ("cost_tokens_prompt", Json.num e.cost_tokens_prompt)
    , ("cost_tokens_output", Json.num e.cost_tokens_output)
    , ("latency_ms", match e.latency_ms with
        | none => Json.null
        | some n => Json.num n)
    , ("verdict", match e.verdict with
        | none => Json.null
        | some s => Json.str s) ]

/-- Parse each element of the serialized message array, failing if any
element fails to parse. -/
def msgsFromJson : List Json → Option (List APMessage)
  | [] => some []
  | j :: rest =>
    match msgFromJson j, msgsFromJson rest with
    | some m, some ms => some (m :: ms)
    | _, _ => none

/-- Parse one newline-delimited trace record back into an exchange. -/
def exchangeFromJson : Json → Option APExchange
  | Json.obj
      [ ("task_id", Json.str tid)
      , ("messages", Json.arr ms)
      , ("cost_tokens_prompt", Json.num cp)
      , ("cost_tokens_output", Json.num co)
      , ("latency_ms", lat)
      , ("verdict", ver) ] =>
    match msgsFromJson ms, lat, ver with
    | some msgs, Json.null, Json.null => some ⟨tid, msgs, cp, co, none, none⟩
    | some msgs, Json.null, Json.str v => some ⟨tid, msgs, cp, co, none, some v⟩
    | some msgs, Json.num n, Json.null => some ⟨tid, msgs, cp, co, some n, none⟩
    | some msgs, Json.num n, Json.str v => some ⟨tid, msgs, cp, co, some n, some v⟩
    | _, _, _ => none
  | _ => none

/-- The trace directory (`TRACE_DIR`, default value of the environment
lookup in `utils/tracer.py`). -/
def TRACE_DIR : String := "traces"

/-- `Tracer` of `utils/tracer.py`: the task id, the start instant captured
at construction (`self._start`, here in integer milliseconds), and the
exchange under construction. -/
structure Tracer where
  task_id : String
  start : Int
  exchange : APExchange

/-- `Tracer.__init__`: store the task id, capture the start instant and
create an `APExchange` with an empty message list (token totals start at
zero, latency and verdict at `None`). -/
def tracerNew (tid : String) (now : Int) : Tracer :=
  { task_id := tid
  , start := now
  , exchange :=
      { task_id := tid
      , messages := []
      , cost_tokens_prompt := 0
      , cost_tokens_output := 0
      , latency_ms := none
      , verdict := none } }

/-- Constructor seen as a fallible call: Python constructors may raise,
so the result is `Except`. `Tracer.__init__` performs no validation at
all — no branch raises — so every input, the empty task id included,
yields `Except.ok`. -/
def tracerInit (tid : String) (now : Int) : Except String Tracer :=
  Except.ok (tracerNew tid now)

/-- `Tracer.log`: append the message to the exchange (insertion order,
no dedup). -/
def tracerLog (t : Tracer) (m : APMessage) : Tracer :=
  { t with exchange := { t.exchange with messages := t.exchange.messages ++ [m] } }

/-- A record emitted through the logging collaborator. -/
inductive LogRec where
  | info (msg : String) : LogRec
  | error (msg : String) : LogRec
deriving DecidableEq

/-- The fallible file append of `finalize` (`open(path, "a") ... write`):
the injected outcome `writeOk` decides whether the I/O succeeds or
raises. -/
def writeTrace (writeOk : Bool) (path : String) (_record : Json) : Except String Unit :=
  if writeOk then Except.ok () else Except.error ("could not open " ++ path)

/-- `verdict` update of `finalize`: assigned only when a verdict argument
is given, otherwise the previous value is kept. -/
def verdictUpdate (v : Option String) (old : Option String) : Option String :=
  match v with
  | some s => some s
  | none => old

/-- Result of one `finalize` call: the tracer afterwards (the exchange is
mutated in place), the record appended to the trace file if the write
succeeded, and the log entry emitted. -/
structure FinalizeOut where
  tracer : Tracer
  persisted : Option Json
  log : LogRec

/-- `Tracer.finalize` of `utils/tracer.py`, with the current instant and
the write outcome injected. In source order: recompute `latency_ms` from
the start instant, add the token arguments to the running totals, set the
verdict when given, then try to append the serialized exchange to
`{TRACE_DIR}/{task_id}.jsonl`; a write failure is caught by the
`try/except` and logged as an error, never re-raised. -/
def tracerFinalize (t : Tracer) (now : Int) (verdict : Option String)
    (prompt_tokens output_tokens : Int) (writeOk : Bool) : FinalizeOut :=
  let ex :=
    { t.exchange with
        latency_ms := some (now - t.start)
      , cost_tokens_prompt := t.exchange.cost_tokens_prompt + prompt_tokens
      , cost_tokens_output := t.exchange.cost_tokens_output + output_tokens
      , verdict := verdictUpdate verdict t.exchange.verdict }
  let t2 : Tracer := { t with exchange := ex }
  let path := TRACE_DIR ++ "/" ++ t.task_id ++ ".jsonl"
  match writeTrace writeOk path (exchangeToJson ex) with
  | Except.ok _ =>
      { tracer := t2
      , persisted := some (exchangeToJson ex)
      , log := LogRec.info ("Trace saved to " ++ path) }
  | Except.error e =>
      { tracer := t2
      , persisted := none
      , log := LogRec.error ("Failed to write trace file " ++ path ++ ": " ++ e) }

/-- Result of `AgentBase.call_openai`: the returned text or the terminal
error, the number of `llm_call` invocations made, and the error log
entries emitted (one per failed attempt). -/
structure CallResult where
  result : Except String String
  calls : Nat
  errorLogs : List String

/-- The error log line of a failed attempt:
`[{name}] Error during LLM call: {e}. Retry {retries}/{max_retries}`
(logged after `retries` was incremented). -/
def retryErrMsg (name e : String) (retries maxRetries : Nat) : String :=
  "[" ++ name ++ "] Error during LLM call: " ++ e ++ ". Retry "
    ++ toString retries ++ "/" ++ toString maxRetries

/-- The terminal error of retry exhaustion:
`[{name}] Failed to get response after {max_retries} attempts`. -/
def exhaustMsg (name : String) (maxRetries : Nat) : String :=
  "[" ++ name ++ "] Failed to get response after " ++ toString maxRetries ++ " attempts"

/-- The `while retries < self.max_retries` loop of `call_openai`, with the
outcome of the `retries`-th model call injected as `outcomes retries`.
A successful call returns its text at once; a failed call logs the error
and retries; leaving the loop raises the terminal error. -/
def callLoop (name : String) (maxRetries : Nat)
    (outcomes : Nat → Except String String) (retries : Nat) : CallResult :=
  if retries < maxRetries then
    match outcomes retries with
    | Except.ok t => { result := Except.ok t, calls := 1, errorLogs := [] }
    | Except.error e =>
        let rest := callLoop name maxRetries outcomes (retries + 1)
        { result := rest.result
        , calls := rest.calls + 1
        , errorLogs := retryErrMsg name e (retries + 1) maxRetries :: rest.errorLogs }
  else
    { result := Except.error (exhaustMsg name maxRetries), calls := 0, errorLogs := [] }
termination_by maxRetries - retries

/-- `AgentBase.call_openai` of `agents/agent_base.py`: run the retry loop
starting from `retries = 0`. -/
def callOpenai (name : String) (maxRetries : Nat)
    (outcomes : Nat → Except String String) : CallResult :=
  callLoop name maxRetries outcomes 0

/-- Token usage as returned by the `llm_call` collaborator. -/
structure Usage where
  prompt_tokens : Int
  output_tokens : Int
deriving DecidableEq

/-- A role/content chat message sent to the model collaborator. -/
abbrev ChatMsg := String × String

/-- `CRITIQUE_PROMPT` of `agents/patterns.py` (verbatim). -/
def CRITIQUE_PROMPT : String :=
  "You are a meticulous reviewer. Given the task description and draft, "
    ++ "list concrete issues (if any) and propose exact fixes. Return JSON "
    ++ "with fields: \x7b\"issues\": [...], \"revise_required\": true/false, "
    ++ "\"patch\": \"...\"\x7d."

/-- The literal lowercase marker searched for in the critique response:
`"revise_required": false`. -/
def noReviseMarker : String := "\"revise_required\": false"

/-- Does `pat` occur at the head of `l`? (character-list prefix test) -/
def matchesAt : List Char → List Char → Bool
  | [], _ => true
  | _ :: _, [] => false
  | a :: as, b :: bs => a == b && matchesAt as bs

/-- Does `pat` occur anywhere inside `l`? (the Python `in` test on strings) -/
def hasSub (pat : List Char) : List Char → Bool
  | [] => matchesAt pat []
  | c :: rest => matchesAt pat (c :: rest) || hasSub pat rest

/-- The revision test of the loop:
`"\"revise_required\": false" in critique_response.lower()`
(lower-casing applied character-wise, then a substring search). -/
def containsMarker (response : String) : Bool :=
  hasSub noReviseMarker.toList (response.toList.map Char.toLower)

/-- Build an `APMessage` the way `patterns.py` constructs one: role,
sender and content given, tool fields defaulted, id and timestamp drawn
from the injected generator. -/
def mkMessage (meta : String × String) (role : Role) (sender content : String) : APMessage :=
  { id := meta.1, role := role, sender := sender, content := content
  , tool_name := none, tool_args := none, ts := meta.2 }

/-- Log a freshly constructed message, drawing its id/timestamp from
`metaGen` at the index of the current message count. -/
def tracerLogNew (metaGen : Nat → String × String) (t : Tracer)
    (role : Role) (sender content : String) : Tracer :=
  tracerLog t (mkMessage (metaGen t.exchange.messages.length) role sender content)

/-- Result of `reflective_improve`: the returned draft, the tracer after
its finalize call, and how many critique and revision model calls were
made. -/
structure ReflectResult where
  draft : String
  tracer : Tracer
  critiqueCalls : Nat
  revisionCalls : Nat

/-- The `for attempt in range(max_retries + 1)` loop of
`reflective_improve` (`agents/patterns.py`). `remaining` is how many
iterations the range still holds; `attempt` is the Python loop variable.
Each iteration: build the critic prompt, call the model, log the critique
as a validator message; if the lowered response contains the no-revision
marker, finalize with verdict "pass" and the usage of the critique call, and
return the current draft; otherwise call the model on the revision
prompt, log the revision, replace the draft, and on the final attempt
finalize with verdict "pass_after_revise" and the summed usage of both
calls of this iteration. Falling out of the range returns the current
draft with no finalize (the unreachable trailing `return`). -/
def reflectiveGo (llm : List ChatMsg → String × Usage)
    (metaGen : Nat → String × String)
    (task_desc agent_name : String) (max_retries : Nat)
    (fin_now : Int) (fin_write : Bool) :
    Nat → Nat → Tracer → String → Nat → Nat → ReflectResult
  | 0, _, tracer, current_draft, cc, rc =>
      { draft := current_draft, tracer := tracer, critiqueCalls := cc, revisionCalls := rc }
  | remaining + 1, attempt, tracer, current_draft, cc, rc =>
      let critique_message :=
        "TASK:\n" ++ task_desc ++ "\n\nDRAFT:\n" ++ current_draft ++ "\n"
      let critic_prompt : List ChatMsg :=
        [("system", CRITIQUE_PROMPT), ("user", critique_message)]
      let res1 := llm critic_prompt
      let critique_response := res1.1
      let usage1 := res1.2
      let tracer1 := tracerLogNew metaGen tracer Role.validator "critic" critique_response
      if containsMarker critique_response then
        let fr := tracerFinalize tracer1 fin_now (some "pass")
          usage1.prompt_tokens usage1.output_tokens fin_write
        { draft := current_draft, tracer := fr.tracer
        , critiqueCalls := cc + 1, revisionCalls := rc }
      else
        let revision_prompt : List ChatMsg :=
          [("system", "Apply the patch or produce a revised complete draft.")
          , ("user", critique_response)]
        let res2 := llm revision_prompt
        let revised := res2.1
        let usage2 := res2.2
        let tracer2 := tracerLogNew metaGen tracer1 Role.agent (agent_name ++ "-reviser") revised
        if attempt == max_retries then
          let fr := tracerFinalize tracer2 fin_now (some "pass_after_revise")
            (usage1.prompt_tokens + usage2.prompt_tokens)
            (usage1.output_tokens + usage2.output_tokens) fin_write
          { draft := revised, tracer := fr.tracer
          , critiqueCalls := cc + 1, revisionCalls := rc + 1 }
        else
          reflectiveGo llm metaGen task_desc agent_name max_retries fin_now fin_write
            remaining (attempt + 1) tracer2 revised (cc + 1) (rc + 1)

/-- `reflective_improve` of `agents/patterns.py`: create a tracer for the
task id, log the task description as the user message and the draft as
the message of the producing agent, then run the critique/revise loop over
`range(max_retries + 1)`. -/
def reflectiveImprove (llm : List ChatMsg → String × Usage)
    (metaGen : Nat → String × String)
    (task_id agent_name task_desc draft : String) (max_retries : Nat)
    (start_now fin_now : Int) (fin_write : Bool) : ReflectResult :=
  let tracer := tracerNew task_id start_now
  let tracer := tracerLogNew metaGen tracer Role.user "user" task_desc
  let tracer := tracerLogNew metaGen tracer Role.agent agent_name draft
  reflectiveGo llm metaGen task_desc agent_name max_retries fin_now fin_write
    (max_retries + 1) 0 tracer draft 0 0

/-- A model collaborator whose reply never contains the no-revision
marker (used to exercise the marker-absent path on concrete inputs). -/
def llmNoMarker : List ChatMsg → String × Usage :=
  fun _ => ("no marker here", { prompt_tokens := 1, output_tokens := 1 })

/-- A model collaborator that always answers with the no-revision marker
in upper case. -/
def llmMarkerUpper : List ChatMsg → String × Usage :=
  fun _ => ("\"REVISE_REQUIRED\": FALSE", { prompt_tokens := 3, output_tokens := 4 })

/-- A concrete id/timestamp generator. -/
def metaSimple : Nat → String × String :=
  fun n => ("id-" ++ toString n, "ts-" ++ toString n)

/-- A per-attempt outcome stream that fails twice and then succeeds. -/
def outcomesFailFailOk : Nat → Except String String :=
  fun n => if n < 2 then Except.error ("boom") else Except.ok ("resp3")

/-! ## Theorems -/

/-- Auxiliary: parsing the serialized role literal recovers the role. -/
theorem roleFromString_roleToString (r : Role) :
    roleFromString (roleToString r) = some r := by
  cases r <;> rfl

/-- Auxiliary: one message round-trips through the trace record format. -/
theorem msgFromJson_msgToJson (m : APMessage) :
    msgFromJson (msgToJson m) = some m := by
  obtain ⟨id, role, sender, content, tn, ta, ts⟩ := m
  cases tn <;> cases ta <;>
    simp [msgToJson, msgFromJson, roleFromString_roleToString]

/-- Auxiliary: a serialized message list round-trips element-wise. -/
theorem msgsFromJson_map (l : List APMessage) :
    msgsFromJson (l.map msgToJson) = some l := by
  induction l with
  | nil => rfl
  | cons m rest ih => simp [msgsFromJson, msgFromJson_msgToJson, ih]

/-- C8: serializing an `APExchange` to the newline-delimited JSON record
that `finalize` writes and parsing that record back yields an exchange
equal to the original in every field (message order, ids, token counts,
verdict, latency). -/
theorem exchange_json_round_trip (e : APExchange) :
    exchangeFromJson (exchangeToJson e) = some e := by
  obtain ⟨tid, msgs, cp, co, lat, ver⟩ := e
  cases lat <;> cases ver <;>
    simp [exchangeToJson, exchangeFromJson, msgsFromJson_map]

/-- C2 counterexample: a tracer finalized at instant 5 holds
`latency_ms = 5`; a later `finalize` at instant 10 overwrites it with 10,
so a later finalize call does NOT leave `latency_ms` unchanged. -/
theorem latency_overwritten_counterexample :
    (tracerFinalize (tracerNew ("t2x") 0) 5 none 0 0 true).tracer.exchange.latency_ms
      = some 5 ∧
    (tracerFinalize
        (tracerFinalize (tracerNew ("t2x") 0) 5 none 0 0 true).tracer
        10 none 0 0 true).tracer.exchange.latency_ms = some 10 ∧
    (tracerFinalize
        (tracerFinalize (tracerNew ("t2x") 0) 5 none 0 0 true).tracer
        10 none 0 0 true).tracer.exchange.latency_ms
      ≠ (tracerFinalize (tracerNew ("t2x") 0) 5 none 0 0 true).tracer.exchange.latency_ms := by
  refine ⟨rfl, rfl, by decide⟩

/-- C2 (amended): every `finalize` call recomputes `latency_ms` as the
elapsed time from construction to that call, overwriting any previously
stored value; latency is recomputed on each call, not set once. -/
theorem finalize_latency_recomputed (t : Tracer) (now : Int) (v : Option String)
    (p o : Int) (w : Bool) :
    (tracerFinalize t now v p o w).tracer.exchange.latency_ms = some (now - t.start) := by
  cases w <;> rfl

/-- C3 counterexample: constructing a `Tracer` with the empty task id does
NOT fail — `Tracer.__init__` performs no validation, so the construction
succeeds (with an empty message sequence). -/
theorem tracer_init_empty_succeeds :
    tracerInit ("") 0 = Except.ok (tracerNew ("") 0) ∧
    (tracerNew ("") 0).exchange.messages = [] := by
  exact ⟨rfl, rfl⟩

/-- C3 (amended): constructing a `Tracer` never fails: every task id,
the empty string included, yields a tracer with an empty message
sequence, the given task id, and the captured start instant. -/
theorem tracer_init_never_fails (tid : String) (now : Int) :
    tracerInit tid now = Except.ok (tracerNew tid now) ∧
    (tracerNew tid now).exchange.messages = [] ∧
    (tracerNew tid now).task_id = tid ∧
    (tracerNew tid now).start = now := by
  exact ⟨rfl, rfl, rfl, rfl⟩

/-- C4: when the trace write fails (unwritable directory), the failure is
a genuine error of the write step, yet `finalize` returns normally: the
caught error is logged through the logging collaborator as an error
record, nothing is persisted, and no exception reaches the caller (the
embedding of `finalize` is a total function whose failing-write branch is
the `except` arm). On a successful write an info record is logged. -/
theorem finalize_write_failure_caught (t : Tracer) (now : Int) (v : Option String)
    (p o : Int) :
    writeTrace false (TRACE_DIR ++ "/" ++ t.task_id ++ ".jsonl")
        (exchangeToJson (tracerFinalize t now v p o false).tracer.exchange)
      = Except.error ("could not open " ++ (TRACE_DIR ++ "/" ++ t.task_id ++ ".jsonl")) ∧
    (tracerFinalize t now v p o false).log
      = LogRec.error ("Failed to write trace file "
          ++ (TRACE_DIR ++ "/" ++ t.task_id ++ ".jsonl") ++ ": "
          ++ ("could not open " ++ (TRACE_DIR ++ "/" ++ t.task_id ++ ".jsonl"))) ∧
    (tracerFinalize t now v p o false).persisted = none ∧
    (tracerFinalize t now v p o true).log
      = LogRec.info ("Trace saved to " ++ (TRACE_DIR ++ "/" ++ t.task_id ++ ".jsonl")) := by
  exact ⟨rfl, rfl, rfl, rfl⟩

/-- C7: token totals start at zero at construction, and each `finalize`
call with non-negative token arguments adds them to the running totals
(accumulation, not overwrite), so the totals are monotonically
non-decreasing across successive finalize calls. -/
theorem cost_tokens_accumulate (t : Tracer) (now : Int) (v : Option String)
    (p o : Int) (w : Bool) (hp : 0 ≤ p) (ho : 0 ≤ o) :
    (∀ tid s, (tracerNew tid s).exchange.cost_tokens_prompt = 0
      ∧ (tracerNew tid s).exchange.cost_tokens_output = 0) ∧
    (tracerFinalize t now v p o w).tracer.exchange.cost_tokens_prompt
      = t.exchange.cost_tokens_prompt + p ∧
    (tracerFinalize t now v p o w).tracer.exchange.cost_tokens_output
      = t.exchange.cost_tokens_output + o ∧
    t.exchange.cost_tokens_prompt
      ≤ (tracerFinalize t now v p o w).tracer.exchange.cost_tokens_prompt ∧
    t.exchange.cost_tokens_output
      ≤ (tracerFinalize t now v p o w).tracer.exchange.cost_tokens_output := by
  have h1 : (tracerFinalize t now v p o w).tracer.exchange.cost_tokens_prompt
      = t.exchange.cost_tokens_prompt + p := by cases w <;> rfl
  have h2 : (tracerFinalize t now v p o w).tracer.exchange.cost_tokens_output
      = t.exchange.cost_tokens_output + o := by cases w <;> rfl
  refine ⟨fun tid s => ⟨rfl, rfl⟩, h1, h2, ?_, ?_⟩
  · rw [h1]; omega
  · rw [h2]; omega

/-- Witness for C7 at a concrete input: a fresh tracer finalized with
token counts 2 and 3 accumulates them onto the zero totals. -/
theorem cost_tokens_accumulate_witness :
    (0 : Int) ≤ 2 ∧ (0 : Int) ≤ 3 ∧
    (tracerFinalize (tracerNew ("t7") 0) 5 none 2 3 true).tracer.exchange.cost_tokens_prompt
      = (tracerNew ("t7") 0).exchange.cost_tokens_prompt + 2 ∧
    (tracerFinalize (tracerNew ("t7") 0) 5 none 2 3 true).tracer.exchange.cost_tokens_output
      = (tracerNew ("t7") 0).exchange.cost_tokens_output + 3 := by
  have h := cost_tokens_accumulate (tracerNew ("t7") 0) 5 none 2 3 true
    (by decide) (by decide)
  exact ⟨by decide, by decide, h.2.1, h.2.2.1⟩

/-- C9: with `max_retries = 0` the `while retries < max_retries` loop
never runs: `call_openai` raises the terminal failure naming the agent
and 0 attempts, makes zero model calls and logs nothing. -/
theorem callOpenai_zero_budget (name : String)
    (outcomes : Nat → Except String String) :
    callOpenai name 0 outcomes
      = { result := Except.error (exhaustMsg name 0), calls := 0, errorLogs := [] } := by
  rw [callOpenai, callLoop]
  simp

/-- C10: `finalize` mutates the in-memory exchange (latency recomputed,
token counts added, verdict set when given) before attempting the write,
so a failed write keeps the mutations — nothing is rolled back and
nothing is persisted — and a later successful `finalize` persists the
record of the exchange whose totals include those accumulated by the
failed call. -/
theorem finalize_mutates_before_write (t : Tracer) (now1 now2 : Int)
    (v1 v2 : Option String) (p1 o1 p2 o2 : Int) :
    (tracerFinalize t now1 v1 p1 o1 false).persisted = none ∧
    (tracerFinalize t now1 v1 p1 o1 false).tracer.exchange.latency_ms
      = some (now1 - t.start) ∧
    (tracerFinalize t now1 v1 p1 o1 false).tracer.exchange.cost_tokens_prompt
      = t.exchange.cost_tokens_prompt + p1 ∧
    (tracerFinalize t now1 v1 p1 o1 false).tracer.exchange.cost_tokens_output
      = t.exchange.cost_tokens_output + o1 ∧
    (tracerFinalize t now1 v1 p1 o1 false).tracer.exchange.verdict
      = verdictUpdate v1 t.exchange.verdict ∧
    (tracerFinalize (tracerFinalize t now1 v1 p1 o1 false).tracer
        now2 v2 p2 o2 true).persisted
      = some (exchangeToJson
          (tracerFinalize (tracerFinalize t now1 v1 p1 o1 false).tracer
            now2 v2 p2 o2 true).tracer.exchange) ∧
    (tracerFinalize (tracerFinalize t now1 v1 p1 o1 false).tracer
        now2 v2 p2 o2 true).tracer.exchange.cost_tokens_prompt
      = t.exchange.cost_tokens_prompt + p1 + p2 := by
  exact ⟨rfl, rfl, rfl, rfl, rfl, rfl, rfl⟩

/-- Auxiliary: when attempts `r, r+1, ...` fail up to the first success at
attempt `k < maxRetries`, the retry loop started at `r` returns that
success after `k - r + 1` calls, with one error log per failed attempt. -/
theorem callLoop_first_success (name t : String) (N : Nat)
    (outcomes : Nat → Except String String) (errs : Nat → String) (k : Nat)
    (hk : k < N) (hfail : ∀ j, j < k → outcomes j = Except.error (errs j))
    (hsucc : outcomes k = Except.ok t) :
    ∀ d r, r + d = k →
      callLoop name N outcomes r
        = { result := Except.ok t, calls := d + 1
          , errorLogs := (List.range' r d).map (fun j => retryErrMsg name (errs j) (j + 1) N) } := by
  intro d
  induction d with
  | zero =>
      intro r hr
      have hrk : r = k := by omega
      subst hrk
      rw [callLoop, if_pos hk, hsucc]
      rfl
  | succ n ih =>
      intro r hr
      have hrk : r < k := by omega
      have hrN : r < N := by omega
      have hout : outcomes r = Except.error (errs r) := hfail r hrk
      rw [callLoop, if_pos hrN, hout]
      have hrec := ih (r + 1) (by omega)
      rw [hrec]
      simp [List.range'_succ]

/-- Auxiliary: when every attempt from `r` up to `maxRetries` fails, the
retry loop started at `r` exhausts the budget and raises the terminal
error, with one error log per failed attempt. -/
theorem callLoop_exhaust (name : String) (N : Nat)
    (outcomes : Nat → Except String String) (errs : Nat → String)
    (hfail : ∀ j, j < N → outcomes j = Except.error (errs j)) :
    ∀ d r, r + d = N →
      callLoop name N outcomes r
        = { result := Except.error (exhaustMsg name N), calls := d
          , errorLogs := (List.range' r d).map (fun j => retryErrMsg name (errs j) (j + 1) N) } := by
  intro d
  induction d with
  | zero =>
      intro r hr
      have hrN : ¬ r < N := by omega
      rw [callLoop, if_neg hrN]
      simp
  | succ n ih =>
      intro r hr
      have hrN : r < N := by omega
      have hout : outcomes r = Except.error (errs r) := hfail r (by omega)
      rw [callLoop, if_pos hrN, hout]
      have hrec := ih (r + 1) (by omega)
      rw [hrec]
      simp [List.range'_succ]

/-- C5: with a retry budget of `N ≥ 1`, `call_openai` returns the text of
the first successful model call immediately — after one call per failed
attempt plus the successful one, logging one error entry per failure —
and if all `N` attempts fail it raises the terminal error naming the
agent and the number of attempts, after exactly `N` calls and `N` error
entries. -/
theorem callOpenai_first_success_or_exhaust (name t : String) (N : Nat)
    (outcomes : Nat → Except String String) (errs : Nat → String) (hN : 1 ≤ N) :
    (∀ k, k < N → (∀ j, j < k → outcomes j = Except.error (errs j)) →
      outcomes k = Except.ok t →
      callOpenai name N outcomes
        = { result := Except.ok t, calls := k + 1
          , errorLogs := (List.range' 0 k).map (fun j => retryErrMsg name (errs j) (j + 1) N) }) ∧
    ((∀ j, j < N → outcomes j = Except.error (errs j)) →
      callOpenai name N outcomes
        = { result := Except.error (exhaustMsg name N), calls := N
          , errorLogs := (List.range' 0 N).map (fun j => retryErrMsg name (errs j) (j + 1) N) }) := by
  constructor
  · intro k hk hfail hsucc
    exact callLoop_first_success name t N outcomes errs k hk hfail hsucc k 0 (by omega)
  · intro hfail
    exact callLoop_exhaust name N outcomes errs hfail N 0 (by omega)

/-- Witness for C5 at the scenario from the spec: a 3-attempt budget against
a model that fails twice then succeeds returns the third response
after exactly 2 error log entries. -/
theorem callOpenai_fail_fail_ok_witness :
    1 ≤ 3 ∧
    callOpenai ("agentA") 3 outcomesFailFailOk
      = { result := Except.ok ("resp3"), calls := 3
        , errorLogs := [retryErrMsg ("agentA") ("boom") 1 3, retryErrMsg ("agentA") ("boom") 2 3] } := by
  refine ⟨by omega, ?_⟩
  have h := (callOpenai_first_success_or_exhaust ("agentA") ("resp3") 3
      outcomesFailFailOk (fun _ => "boom") (by omega)).1 2 (by omega)
    (by intro j hj; interval_cases j <;> rfl) (by rfl)
  rw [h]
  rfl

/-- C6: whenever the first critique response contains the no-revision
marker (case-insensitively), `reflective_improve` returns the original
draft unchanged, finalizes with verdict "pass" using only that critique
counts of that critique call alone, makes exactly one critique call and no revision
call, and the exchange holds exactly 3 messages: the user task
description, the initial draft, and the critique. -/
theorem reflective_marker_pass (llm : List ChatMsg → String × Usage)
    (metaGen : Nat → String × String)
    (task_id agent_name task_desc draft : String) (max_retries : Nat)
    (start_now fin_now : Int) (fin_write : Bool)
    (hm : containsMarker (llm [("system", CRITIQUE_PROMPT),
        ("user", "TASK:\n" ++ task_desc ++ "\n\nDRAFT:\n" ++ draft ++ "\n")]).1 = true) :
    (reflectiveImprove llm metaGen task_id agent_name task_desc draft
        max_retries start_now fin_now fin_write).draft = draft ∧
    (reflectiveImprove llm metaGen task_id agent_name task_desc draft
        max_retries start_now fin_now fin_write).tracer.exchange.verdict = some ("pass") ∧
    (reflectiveImprove llm metaGen task_id agent_name task_desc draft
        max_retries start_now fin_now fin_write).tracer.exchange.cost_tokens_prompt
      = (llm [("system", CRITIQUE_PROMPT),
          ("user", "TASK:\n" ++ task_desc ++ "\n\nDRAFT:\n" ++ draft ++ "\n")]).2.prompt_tokens ∧
    (reflectiveImprove llm metaGen task_id agent_name task_desc draft
        max_retries start_now fin_now fin_write).tracer.exchange.cost_tokens_output
      = (llm [("system", CRITIQUE_PROMPT),
          ("user", "TASK:\n" ++ task_desc ++ "\n\nDRAFT:\n" ++ draft ++ "\n")]).2.output_tokens ∧
    (reflectiveImprove llm metaGen task_id agent_name task_desc draft
        max_retries start_now fin_now fin_write).critiqueCalls = 1 ∧
    (reflectiveImprove llm metaGen task_id agent_name task_desc draft
        max_retries start_now fin_now fin_write).revisionCalls = 0 ∧
    (reflectiveImprove llm metaGen task_id agent_name task_desc draft
        max_retries start_now fin_now fin_write).tracer.exchange.messages.map
          (fun m => (m.role, m.sender, m.content))
      = [(Role.user, "user", task_desc), (Role.agent, agent_name, draft),
         (Role.validator, "critic",
           (llm [("system", CRITIQUE_PROMPT),
             ("user", "TASK:\n" ++ task_desc ++ "\n\nDRAFT:\n" ++ draft ++ "\n")]).1)] ∧
    (reflectiveImprove llm metaGen task_id agent_name task_desc draft
        max_retries start_now fin_now fin_write).tracer.exchange.messages.length = 3 := by
  cases fin_write <;>
    simp [reflectiveImprove, reflectiveGo, hm, tracerLogNew, tracerLog, tracerNew,
      mkMessage, tracerFinalize, verdictUpdate, writeTrace]

/-- Witness for C6 at a concrete input: an upper-case marker response
(`"REVISE_REQUIRED": FALSE`) makes the loop return the original draft
with verdict "pass" and a 3-message exchange. -/
theorem reflective_marker_pass_witness :
    containsMarker (llmMarkerUpper [("system", CRITIQUE_PROMPT),
      ("user", "TASK:\n" ++ "desc" ++ "\n\nDRAFT:\n" ++ "draft0" ++ "\n")]).1 = true ∧
    (reflectiveImprove llmMarkerUpper metaSimple ("t1") ("writer") ("desc") ("draft0")
        1 0 5 true).draft = "draft0" ∧
    (reflectiveImprove llmMarkerUpper metaSimple ("t1") ("writer") ("desc") ("draft0")
        1 0 5 true).tracer.exchange.verdict = some ("pass") ∧
    (reflectiveImprove llmMarkerUpper metaSimple ("t1") ("writer") ("desc") ("draft0")
        1 0 5 true).tracer.exchange.messages.length = 3 := by
  have h := reflective_marker_pass llmMarkerUpper metaSimple ("t1") ("writer")
    ("desc") ("draft0") 1 0 5 true (by decide)
  exact ⟨by decide, h.1, h.2.1, h.2.2.2.2.2.2.2⟩

/-- C1 (evaluation at the failing input): with `max_retries = 0` and a
critic response that never contains the no-revision marker, the loop
makes 1 critique call and 1 revision call — not 0 revision calls — and
returns the reviser output with verdict "pass_after_revise". -/
theorem reflective_zero_budget_revises :
    (reflectiveImprove llmNoMarker metaSimple ("t0") ("agentB") ("desc") ("draft0")
        0 0 5 true).revisionCalls = 1 ∧
    (reflectiveImprove llmNoMarker metaSimple ("t0") ("agentB") ("desc") ("draft0")
        0 0 5 true).critiqueCalls = 1 ∧
    (reflectiveImprove llmNoMarker metaSimple ("t0") ("agentB") ("desc") ("draft0")
        0 0 5 true).draft = "no marker here" ∧
    (reflectiveImprove llmNoMarker metaSimple ("t0") ("agentB") ("desc") ("draft0")
        0 0 5 true).tracer.exchange.verdict = some ("pass_after_revise") := by
  refine ⟨?_, ?_, ?_, ?_⟩ <;> rfl
